import Mathlib

/-!
Shallow embedding of the PCF8523 real-time-clock driver (pcf8523.py).

The chip's registers are modelled as a total map from register address to the
byte stored there; the smbus primitives `read_byte_data` / `write_byte_data`
become `read` and `write` on that map.  Calendar field inputs are Python
integers, modelled as `Int`; Python's floor division `//` and modulo `%` are
`Int.fdiv` and `Int.fmod`.  A failing `assert` statement is modelled as an
`Except` error carrying the field name and the offending value, exactly the
data the source's assertion message (`'invalid seconds %s' % seconds`)
reports; control returns no successor state in that case, mirroring the
exception aborting the method before any bus write.
-/

namespace PCF8523

/-- Register addresses, from `class Reg` in the source. -/
def Reg.CONTROL_1 : Nat := 0x00

def Reg.CONTROL_2 : Nat := 0x01

def Reg.SECONDS : Nat := 0x03

def Reg.MINUTES : Nat := 0x04

def Reg.HOURS : Nat := 0x05

def Reg.DAYS : Nat := 0x06

def Reg.WEEKDAY : Nat := 0x07

def Reg.MONTH : Nat := 0x08

def Reg.YEAR : Nat := 0x09

def Reg.ALARM_MINUTES : Nat := 0x0A

def Reg.ALARM_HOURS : Nat := 0x0B

def Reg.ALARM_DAY : Nat := 0x0C

def Reg.ALARM_WEEKDAY : Nat := 0x0D

def Reg.CLK_OUT : Nat := 0x0F

/-- Magic byte: alarm "ignore this field" sentinel. -/
def ALARM_IGNORE : Nat := 0x80

/-- Magic byte: software reset command. -/
def RTC_RESET : Nat := 0x58

/-- Clock-out frequency codes, from the source's module-level constants. -/
def CLOCK_CLK_OUT_FREQ_32_DOT_768KHZ : Nat := 0x80

def CLOCK_CLK_OUT_FREQ_1_DOT_024KHZ : Nat := 0x81

def CLOCK_CLK_OUT_FREQ_32_KHZ : Nat := 0x82

def CLOCK_CLK_OUT_FREQ_1_HZ : Nat := 0x83

def CLOCK_CLK_HIGH_IMPEDANCE : Nat := 0x0

/-- The five frequency codes the module defines (in source order). -/
def clk_out_codes : List Nat :=
  [CLOCK_CLK_OUT_FREQ_32_DOT_768KHZ, CLOCK_CLK_OUT_FREQ_1_DOT_024KHZ,
   CLOCK_CLK_OUT_FREQ_32_KHZ, CLOCK_CLK_OUT_FREQ_1_HZ, CLOCK_CLK_HIGH_IMPEDANCE]

def IGNORE_LAST_BIT : Nat := 0x7F

/-- Source: `bcd_to_int(bcd) = bcd // 16 * 10 + bcd % 16`.  The argument is a
Python int; `//` and `%` are floor division and floor modulo. -/
def bcd_to_int (bcd : Int) : Int :=
  bcd.fdiv 16 * 10 + bcd.fmod 16

/-- Source: `int_to_bcd(n) = n // 10 * 16 + n % 10`. -/
def int_to_bcd (n : Int) : Int :=
  n.fdiv 10 * 16 + n.fmod 10

/-- Data carried by a failed range assertion in `assert_clock_inputs`: the
assertion message names the field and the offending value. -/
structure ValidationError where
  field : String
  value : Int

/-- One `if x is not None: assert lo <= x <= hi, 'invalid field %s' % x`
block of `assert_clock_inputs`. -/
def check_range (name : String) (lo hi : Int) (o : Option Int) :
    Except ValidationError Unit :=
  match o with
  | none => Except.ok ()
  | some v => if lo ≤ v ∧ v ≤ hi then Except.ok () else Except.error ⟨name, v⟩

/-- Sequencing of two statements where the first may raise: the Python
semantics of running one assert block after another. -/
def seqE (a b : Except ValidationError Unit) : Except ValidationError Unit :=
  match a with
  | Except.error e => Except.error e
  | Except.ok _ => b

/-- Source: `assert_clock_inputs(seconds, minutes, hours, days, month, year,
weekday)` checks each supplied field against its documented range, in this
order, raising on the first violation. -/
def assert_clock_inputs (seconds minutes hours days month year weekday : Option Int) :
    Except ValidationError Unit :=
  seqE (check_range "seconds" 0 59 seconds)
    (seqE (check_range "minutes" 0 59 minutes)
      (seqE (check_range "hours" 0 23 hours)
        (seqE (check_range "days" 1 31 days)
          (seqE (check_range "month" 1 12 month)
            (seqE (check_range "year" 0 99 year)
              (check_range "weekday" 1 7 weekday))))))

/-- Register file of the chip: address to byte stored. -/
abbrev Regs := Nat → Nat

/-- Source: `self.bus.write_byte_data(self.addr, register, data)`. -/
def write (st : Regs) (register data : Nat) : Regs :=
  fun a => if a = register then data else st a

/-- Source: `self.bus.read_byte_data(self.addr, register)`. -/
def read (st : Regs) (register : Nat) : Nat :=
  st register

/-- Source: `bcd_to_int(self.read(Reg.SECONDS) & IGNORE_LAST_BIT)`. -/
def read_seconds (st : Regs) : Int :=
  bcd_to_int ((read st Reg.SECONDS &&& IGNORE_LAST_BIT : Nat) : Int)

/-- Source: `bcd_to_int(self.read(Reg.MINUTES) & IGNORE_LAST_BIT)`. -/
def read_minutes (st : Regs) : Int :=
  bcd_to_int ((read st Reg.MINUTES &&& IGNORE_LAST_BIT : Nat) : Int)

/-- Source: `bcd_to_int(self.read(Reg.HOURS) & 0x3F)`. -/
def read_hours (st : Regs) : Int :=
  bcd_to_int ((read st Reg.HOURS &&& 0x3F : Nat) : Int)

/-- Source: `bcd_to_int(self.read(Reg.WEEKDAY) & 0x07)`. -/
def read_day (st : Regs) : Int :=
  bcd_to_int ((read st Reg.WEEKDAY &&& 0x07 : Nat) : Int)

/-- Source: `bcd_to_int(self.read(Reg.DAYS) & 0x3F)`. -/
def read_date (st : Regs) : Int :=
  bcd_to_int ((read st Reg.DAYS &&& 0x3F : Nat) : Int)

/-- Source: `bcd_to_int(self.read(Reg.MONTH) & 0x1F)`. -/
def read_month (st : Regs) : Int :=
  bcd_to_int ((read st Reg.MONTH &&& 0x1F : Nat) : Int)

/-- Source: `bcd_to_int(self.read(Reg.YEAR))` — no mask on the year. -/
def read_year (st : Regs) : Int :=
  bcd_to_int ((read st Reg.YEAR : Nat) : Int)

/-- Source: `read_all` returns `(year, month, date, day, hours, minutes,
seconds)`. -/
def read_all (st : Regs) : Int × Int × Int × Int × Int × Int × Int :=
  (read_year st, read_month st, read_date st,
   read_day st, read_hours st, read_minutes st, read_seconds st)

/-- One `if x is not None: self.write(reg, int_to_bcd(x))` block of
`write_all`; the bus carries bytes, hence `Int.toNat` at the boundary (a
validated field encodes to a value in 0..0x99). -/
def upd (st : Regs) (register : Nat) (o : Option Int) : Regs :=
  match o with
  | some v => write st register (int_to_bcd v).toNat
  | none => st

/-- Source: `write_all` runs `assert_clock_inputs` first, then writes each
supplied field's BCD encoding to its register in the order seconds, minutes,
hours, date, month, year, weekday. -/
def write_all (st : Regs)
    (seconds minutes hours date month year iso_week_day : Option Int) :
    Except ValidationError Regs :=
  match assert_clock_inputs seconds minutes hours date month year iso_week_day with
  | Except.error e => Except.error e
  | Except.ok _ =>
    Except.ok (upd (upd (upd (upd (upd (upd (upd st
      Reg.SECONDS seconds)
      Reg.MINUTES minutes)
      Reg.HOURS hours)
      Reg.DAYS date)
      Reg.MONTH month)
      Reg.YEAR year)
      Reg.WEEKDAY iso_week_day)

/-- Source: `self.write(Reg.CLK_OUT, frequency)` — the byte is written
unconditionally, whatever its value. -/
def set_clk_out_frequency (st : Regs) (frequency : Nat) : Regs :=
  write st Reg.CLK_OUT frequency

/-- Default of the `frequency` parameter in the Python signature:
`CLOCK_CLK_OUT_FREQ_1_HZ`. -/
def set_clk_out_frequency_default : Nat := CLOCK_CLK_OUT_FREQ_1_HZ

/-- Source: read CONTROL_1, set bit 1 (`| 0x02`), write back. -/
def enable_alarm_interrupt (st : Regs) : Regs :=
  write st Reg.CONTROL_1 (read st Reg.CONTROL_1 ||| 0x02)

/-- Source: read CONTROL_1, clear bit 1 (`& 0xfd`), write back. -/
def disable_alarm_interrupt (st : Regs) : Regs :=
  write st Reg.CONTROL_1 (read st Reg.CONTROL_1 &&& 0xFD)

/-- One alarm register value in `set_alarm`: supplied fields get
`int_to_bcd(x) & IGNORE_LAST_BIT`, unsupplied ones the `ALARM_IGNORE`
sentinel. -/
def alarm_byte (o : Option Int) : Nat :=
  match o with
  | some v => (int_to_bcd v).toNat &&& IGNORE_LAST_BIT
  | none => ALARM_IGNORE

/-- Source: `set_alarm(min, hour, day, weekday)` validates via
`assert_clock_inputs(minutes=min, hours=hour, days=day, weekday=weekday)`,
writes the four alarm registers, then calls `enable_alarm_interrupt`. -/
def set_alarm (st : Regs) (min hour day weekday : Option Int) :
    Except ValidationError Regs :=
  match assert_clock_inputs none min hour day none none weekday with
  | Except.error e => Except.error e
  | Except.ok _ =>
    Except.ok (enable_alarm_interrupt
      (write (write (write (write st
        Reg.ALARM_MINUTES (alarm_byte min))
        Reg.ALARM_HOURS (alarm_byte hour))
        Reg.ALARM_DAY (alarm_byte day))
        Reg.ALARM_WEEKDAY (alarm_byte weekday)))

/-- Default of the `min` parameter in the Python signature
`set_alarm(self, min=1, hour=None, day=None, weekday=None)`: the literal 1,
not None. -/
def set_alarm_default_min : Option Int := some 1

/-- Source: `clear_alarm` writes 0x00 to CONTROL_2, then ALARM_IGNORE to
each of the four alarm registers. -/
def clear_alarm (st : Regs) : Regs :=
  write (write (write (write (write st
    Reg.CONTROL_2 0x00)
    Reg.ALARM_MINUTES ALARM_IGNORE)
    Reg.ALARM_HOURS ALARM_IGNORE)
    Reg.ALARM_DAY ALARM_IGNORE)
    Reg.ALARM_WEEKDAY ALARM_IGNORE

/-- A field value lies in the closed range the source asserts for it (an
unsupplied field passes vacuously). -/
abbrev in_range (lo hi : Int) (o : Option Int) : Prop :=
  match o with
  | none => True
  | some v => lo ≤ v ∧ v ≤ hi

instance in_range_dec (lo hi : Int) (o : Option Int) : Decidable (in_range lo hi o) :=
  match o with
  | none => Decidable.isTrue trivial
  | some v => inferInstanceAs (Decidable (lo ≤ v ∧ v ≤ hi))

/-- Every supplied field of a `write_all` request lies in its documented
domain. -/
abbrev all_in_range (s m h d mo y w : Option Int) : Prop :=
  in_range 0 59 s ∧ in_range 0 59 m ∧ in_range 0 23 h ∧ in_range 1 31 d ∧
  in_range 1 12 mo ∧ in_range 0 99 y ∧ in_range 1 7 w

/-- The error names one of the supplied fields together with its
out-of-range value. -/
abbrev names_offending (s m h d mo y w : Option Int) (e : ValidationError) : Prop :=
  (e.field = "seconds" ∧ s = some e.value ∧ ¬ (0 ≤ e.value ∧ e.value ≤ 59)) ∨
  (e.field = "minutes" ∧ m = some e.value ∧ ¬ (0 ≤ e.value ∧ e.value ≤ 59)) ∨
  (e.field = "hours" ∧ h = some e.value ∧ ¬ (0 ≤ e.value ∧ e.value ≤ 23)) ∨
  (e.field = "days" ∧ d = some e.value ∧ ¬ (1 ≤ e.value ∧ e.value ≤ 31)) ∨
  (e.field = "month" ∧ mo = some e.value ∧ ¬ (1 ≤ e.value ∧ e.value ≤ 12)) ∨
  (e.field = "year" ∧ y = some e.value ∧ ¬ (0 ≤ e.value ∧ e.value ≤ 99)) ∨
  (e.field = "weekday" ∧ w = some e.value ∧ ¬ (1 ≤ e.value ∧ e.value ≤ 7))

/-- A fixed register file used to instantiate universally quantified
results: every register holds 0b11111101. -/
def regs0 : Regs := fun _ => 0xFD

/-- With its positive divisor, the encoder's floor division agrees with
Euclidean division. -/
theorem int_to_bcd_eq (n : Int) : int_to_bcd n = n / 10 * 16 + n % 10 := by
  unfold int_to_bcd
  rw [Int.fdiv_eq_ediv _ (by decide), Int.fmod_eq_emod _ (by decide)]

/-- With its positive divisor, the decoder's floor division agrees with
Euclidean division. -/
theorem bcd_to_int_eq (b : Int) : bcd_to_int b = b / 16 * 10 + b % 16 := by
  unfold bcd_to_int
  rw [Int.fdiv_eq_ediv _ (by decide), Int.fmod_eq_emod _ (by decide)]

/-- Decoding inverts encoding on the two-decimal-digit range (with
Euclidean semantics the identity even holds unconditionally, so the range
hypotheses go unused by `omega`). -/
theorem bcd_roundtrip (n : Int) (_h0 : 0 ≤ n) (_h1 : n ≤ 99) :
    bcd_to_int (int_to_bcd n) = n := by
  rw [int_to_bcd_eq, bcd_to_int_eq]
  omega

/-- The 7-bit data mask is reduction modulo 128. -/
theorem mask_127 (x : Nat) : x &&& 127 = x % 128 := by
  have h : (127 : Nat) = 2 ^ 7 - 1 := by norm_num
  rw [h, Nat.and_pow_two_sub_one_eq_mod]

/-- The 6-bit data mask is reduction modulo 64. -/
theorem mask_63 (x : Nat) : x &&& 63 = x % 64 := by
  have h : (63 : Nat) = 2 ^ 6 - 1 := by norm_num
  rw [h, Nat.and_pow_two_sub_one_eq_mod]

/-- The 5-bit data mask is reduction modulo 32. -/
theorem mask_31 (x : Nat) : x &&& 31 = x % 32 := by
  have h : (31 : Nat) = 2 ^ 5 - 1 := by norm_num
  rw [h, Nat.and_pow_two_sub_one_eq_mod]

/-- The 3-bit data mask is reduction modulo 8. -/
theorem mask_7 (x : Nat) : x &&& 7 = x % 8 := by
  have h : (7 : Nat) = 2 ^ 3 - 1 := by norm_num
  rw [h, Nat.and_pow_two_sub_one_eq_mod]

/-- C2: for every integer n with 0 ≤ n ≤ 99, decoding the BCD encoding
returns the original value: `bcd_to_int (int_to_bcd n) = n`. -/
theorem c2_bcd_round_trip (n : Int) (h0 : 0 ≤ n) (h1 : n ≤ 99) :
    bcd_to_int (int_to_bcd n) = n :=
  bcd_roundtrip n h0 h1

/-- Witness for C2 at n = 45. -/
theorem c2_bcd_round_trip_witness :
    0 ≤ (45 : Int) ∧ (45 : Int) ≤ 99 ∧ bcd_to_int (int_to_bcd 45) = 45 :=
  ⟨by decide, by decide, c2_bcd_round_trip 45 (by decide) (by decide)⟩

/-- C5: for every prior register state, `clear_alarm` leaves control
register 2 equal to 0x00 and all four alarm registers equal to the
ALARM_IGNORE sentinel 0x80. -/
theorem c5_clear_alarm_disarms (st : Regs) :
    clear_alarm st Reg.CONTROL_2 = 0x00 ∧
    clear_alarm st Reg.ALARM_MINUTES = ALARM_IGNORE ∧
    clear_alarm st Reg.ALARM_HOURS = ALARM_IGNORE ∧
    clear_alarm st Reg.ALARM_DAY = ALARM_IGNORE ∧
    clear_alarm st Reg.ALARM_WEEKDAY = ALARM_IGNORE :=
  ⟨rfl, rfl, rfl, rfl, rfl⟩

/-- C6: for every initial control-register-1 byte, `enable_alarm_interrupt`
sets bit 1, leaves every other bit unchanged, and is idempotent on the
register value. -/
theorem c6_enable_alarm_interrupt_bits (st : Regs) :
    (enable_alarm_interrupt st Reg.CONTROL_1).testBit 1 = true ∧
    (∀ i, ¬ i = 1 →
      (enable_alarm_interrupt st Reg.CONTROL_1).testBit i =
        (st Reg.CONTROL_1).testBit i) ∧
    enable_alarm_interrupt (enable_alarm_interrupt st) Reg.CONTROL_1 =
      enable_alarm_interrupt st Reg.CONTROL_1 := by
  have hv : enable_alarm_interrupt st Reg.CONTROL_1 = st Reg.CONTROL_1 ||| 2 := rfl
  have h21 : (2 : Nat).testBit 1 = true := by decide
  refine ⟨?_, ?_, ?_⟩
  · rw [hv, Nat.testBit_or, h21, Bool.or_true]
  · intro i hi
    have h2i : (2 : Nat).testBit i = false := by
      have h2p : (2 : Nat) = 2 ^ 1 := by decide
      rw [h2p, Nat.testBit_two_pow]
      exact decide_eq_false fun h => hi h.symm
    rw [hv, Nat.testBit_or, h2i, Bool.or_false]
  · have hv2 : enable_alarm_interrupt (enable_alarm_interrupt st) Reg.CONTROL_1 =
        enable_alarm_interrupt st Reg.CONTROL_1 ||| 2 := rfl
    rw [hv2, hv, Nat.or_assoc, Nat.or_self]

/-- Witness for C6 at the register file holding 0b11111101 everywhere, the
spec's example byte: the result differs from it only in bit 1. -/
theorem c6_enable_alarm_interrupt_bits_witness :
    enable_alarm_interrupt regs0 Reg.CONTROL_1 = 0xFF ∧
    (enable_alarm_interrupt regs0 Reg.CONTROL_1).testBit 1 = true ∧
    (enable_alarm_interrupt regs0 Reg.CONTROL_1).testBit 7 =
      (regs0 Reg.CONTROL_1).testBit 7 :=
  ⟨by decide, (c6_enable_alarm_interrupt_bits regs0).1,
   (c6_enable_alarm_interrupt_bits regs0).2.1 7 (by decide)⟩

/-- C7 evaluation: `int_to_bcd` raises nothing out of range — it silently
computes.  At 100 it returns 160, which a seconds-register read (mask 0x7F,
then decode) turns into 20, a silent corruption; at -1 it returns -7 (Python
floor division), again without any error. -/
theorem c7_int_to_bcd_silently_truncates :
    int_to_bcd 100 = 160 ∧ int_to_bcd (-1) = -7 ∧
    read_seconds (write regs0 Reg.SECONDS (int_to_bcd 100).toNat) = 20 :=
  ⟨by decide, by decide, by decide⟩

/-- C8 counterexample: 0x42 is none of the five documented frequency codes,
yet `set_clk_out_frequency` raises nothing and writes it straight to the
clock-output register. -/
theorem c8_clk_out_counterexample :
    ¬ (0x42 ∈ clk_out_codes) ∧
    set_clk_out_frequency regs0 0x42 Reg.CLK_OUT = 0x42 :=
  ⟨by decide, by decide⟩

/-- C8 amended: `set_clk_out_frequency` writes its argument byte to the
clock-output register 0x0F unconditionally — any value, documented code or
not, is accepted and written, and no other register changes. -/
theorem c8_clk_out_unvalidated_write (st : Regs) (frequency : Nat) :
    set_clk_out_frequency st frequency Reg.CLK_OUT = frequency ∧
    (∀ r, ¬ r = Reg.CLK_OUT → set_clk_out_frequency st frequency r = read st r) := by
  refine ⟨rfl, ?_⟩
  intro r hr
  unfold set_clk_out_frequency write read
  simp [hr]

/-- Witness for C8's amended statement at the default frequency code 1 Hz. -/
theorem c8_clk_out_unvalidated_write_witness :
    set_clk_out_frequency regs0 CLOCK_CLK_OUT_FREQ_1_HZ Reg.CLK_OUT = 0x83 ∧
    set_clk_out_frequency regs0 CLOCK_CLK_OUT_FREQ_1_HZ Reg.CONTROL_1 =
      regs0 Reg.CONTROL_1 :=
  ⟨(c8_clk_out_unvalidated_write regs0 CLOCK_CLK_OUT_FREQ_1_HZ).1,
   (c8_clk_out_unvalidated_write regs0 CLOCK_CLK_OUT_FREQ_1_HZ).2 Reg.CONTROL_1 (by decide)⟩

/-- C9 counterexample: the seconds register holding byte 0x7F survives the
0x7F mask unchanged and decodes to 85, outside the documented 0–59 domain. -/
theorem c9_decode_out_of_domain_counterexample :
    read_seconds (write regs0 Reg.SECONDS 0x7F) = 85 ∧
    ¬ read_seconds (write regs0 Reg.SECONDS 0x7F) ≤ 59 :=
  ⟨by decide, by decide⟩

/-- C9 amended: `read_seconds` is only bounded by what the 0x7F mask allows —
0 ≤ read_seconds ≤ 85 for an arbitrary register byte; the decoded value lies
in the 0–59 domain exactly when the masked byte is the BCD encoding of an
in-domain value, as written by a validated `write_all`. -/
theorem c9_read_seconds_range (st : Regs) :
    0 ≤ read_seconds st ∧ read_seconds st ≤ 85 ∧
    (∀ n : Int, 0 ≤ n → n ≤ 59 →
      read st Reg.SECONDS &&& IGNORE_LAST_BIT = (int_to_bcd n).toNat →
      read_seconds st = n) := by
  have hm : read st Reg.SECONDS &&& IGNORE_LAST_BIT ≤ 127 := Nat.and_le_right
  refine ⟨?_, ?_, ?_⟩
  · unfold read_seconds
    rw [bcd_to_int_eq]
    omega
  · unfold read_seconds
    rw [bcd_to_int_eq]
    omega
  · intro n h0 h1 heq
    unfold read_seconds
    rw [heq]
    have hb : 0 ≤ int_to_bcd n := by
      rw [int_to_bcd_eq]
      omega
    rw [Int.toNat_of_nonneg hb]
    exact bcd_roundtrip n h0 (by omega)

/-- Witness for C9's amended statement: a register byte written as the BCD
encoding of 45 reads back as 45, inside the domain. -/
theorem c9_read_seconds_range_witness :
    read_seconds (write regs0 Reg.SECONDS 0x45) = 45 :=
  (c9_read_seconds_range (write regs0 Reg.SECONDS 0x45)).2.2 45
    (by decide) (by decide) (by decide)

/-- C1: over any starting register state, `write_all` of the tuple
{seconds 45, minutes 30, hours 13, day 15, month 6, year 23, weekday 4}
succeeds, and `read_all` on the resulting state returns the identical seven
values, in its (year, month, date, day, hours, minutes, seconds) order. -/
theorem c1_write_read_all_round_trip (st : Regs) :
    ∃ st2,
      write_all st (some 45) (some 30) (some 13) (some 15) (some 6) (some 23)
        (some 4) = Except.ok st2 ∧
      read_all st2 = (23, 6, 15, 4, 13, 30, 45) := by
  refine ⟨_, rfl, ?_⟩
  simp [read_all, read_year, read_month, read_date, read_day, read_hours, read_minutes,
        read_seconds, read, upd, write, Reg.SECONDS, Reg.MINUTES, Reg.HOURS, Reg.DAYS,
        Reg.WEEKDAY, Reg.MONTH, Reg.YEAR, IGNORE_LAST_BIT, mask_127, mask_63, mask_31,
        mask_7, bcd_to_int_eq, int_to_bcd_eq]

/-- C4: `set_alarm` with minute 30 and the other three fields unsupplied
writes the masked BCD encoding 0x30 to the alarm-minute register (the only
non-sentinel alarm register), the 0x80 sentinel to the other three, and then
enables the alarm interrupt by OR-ing 0x02 into control register 1. -/
theorem c4_set_alarm_minute_only (st : Regs) :
    ∃ st2, set_alarm st (some 30) none none none = Except.ok st2 ∧
      st2 Reg.ALARM_MINUTES = (int_to_bcd 30).toNat &&& IGNORE_LAST_BIT ∧
      st2 Reg.ALARM_MINUTES = 0x30 ∧
      ¬ st2 Reg.ALARM_MINUTES = ALARM_IGNORE ∧
      st2 Reg.ALARM_HOURS = ALARM_IGNORE ∧
      st2 Reg.ALARM_DAY = ALARM_IGNORE ∧
      st2 Reg.ALARM_WEEKDAY = ALARM_IGNORE ∧
      st2 Reg.CONTROL_1 = st Reg.CONTROL_1 ||| 0x02 := by
  refine ⟨_, rfl, ?_, ?_, ?_, ?_, ?_, ?_, ?_⟩ <;>
    simp [enable_alarm_interrupt, alarm_byte, read, upd, write, Reg.ALARM_MINUTES,
          Reg.ALARM_HOURS, Reg.ALARM_DAY, Reg.ALARM_WEEKDAY, Reg.CONTROL_1,
          ALARM_IGNORE, IGNORE_LAST_BIT, mask_127, int_to_bcd_eq]

/-- C10: the `min` parameter of `set_alarm` defaults to 1, so a call relying
on the defaults programs a real minute=1 match (alarm-minute register 0x01,
not the sentinel), leaves the other three alarm registers at the 0x80
sentinel, and enables the alarm interrupt; only an explicit None for the
minute yields the all-ignore sentinel in the alarm-minute register. -/
theorem c10_set_alarm_default_minute_one (st : Regs) :
    set_alarm_default_min = some 1 ∧
    (∃ st2, set_alarm st set_alarm_default_min none none none = Except.ok st2 ∧
      st2 Reg.ALARM_MINUTES = 0x01 ∧
      ¬ st2 Reg.ALARM_MINUTES = ALARM_IGNORE ∧
      st2 Reg.ALARM_HOURS = ALARM_IGNORE ∧
      st2 Reg.ALARM_DAY = ALARM_IGNORE ∧
      st2 Reg.ALARM_WEEKDAY = ALARM_IGNORE ∧
      st2 Reg.CONTROL_1 = st Reg.CONTROL_1 ||| 0x02) ∧
    (∃ st3, set_alarm st none none none none = Except.ok st3 ∧
      st3 Reg.ALARM_MINUTES = ALARM_IGNORE) := by
  refine ⟨rfl, ⟨_, rfl, ?_, ?_, ?_, ?_, ?_, ?_⟩, ⟨_, rfl, ?_⟩⟩ <;>
    simp [set_alarm_default_min, enable_alarm_interrupt, alarm_byte, read, upd, write,
          Reg.ALARM_MINUTES, Reg.ALARM_HOURS, Reg.ALARM_DAY, Reg.ALARM_WEEKDAY,
          Reg.CONTROL_1, ALARM_IGNORE, IGNORE_LAST_BIT, mask_127, int_to_bcd_eq]

/-- A range check on an in-range (or unsupplied) field passes. -/
theorem check_range_ok (name : String) (lo hi : Int) (o : Option Int)
    (h : in_range lo hi o) : check_range name lo hi o = Except.ok () := by
  cases o with
  | none => rfl
  | some v =>
    unfold check_range
    exact if_pos h

/-- A range check on a supplied out-of-range field raises, naming the field
and the value. -/
theorem check_range_err (name : String) (lo hi : Int) (v : Int)
    (h : ¬ (lo ≤ v ∧ v ≤ hi)) :
    check_range name lo hi (some v) = Except.error ⟨name, v⟩ := by
  unfold check_range
  exact if_neg h

/-- A field that is not in range is a supplied value violating its bounds. -/
theorem not_in_range_elim (lo hi : Int) (o : Option Int) (h : ¬ in_range lo hi o) :
    ∃ v, o = some v ∧ ¬ (lo ≤ v ∧ v ≤ hi) := by
  cases o with
  | none => exact absurd trivial h
  | some v => exact ⟨v, rfl, h⟩

/-- Sequencing after a passed check runs the rest. -/
theorem seqE_ok (b : Except ValidationError Unit) : seqE (Except.ok ()) b = b := rfl

/-- Sequencing stops at the first raise. -/
theorem seqE_err (e : ValidationError) (b : Except ValidationError Unit) :
    seqE (Except.error e) b = Except.error e := rfl

/-- With every supplied field in range, `assert_clock_inputs` passes. -/
theorem assert_clock_inputs_ok (s mi hr dy mo yr wd : Option Int)
    (hall : all_in_range s mi hr dy mo yr wd) :
    assert_clock_inputs s mi hr dy mo yr wd = Except.ok () := by
  obtain ⟨h1, h2, h3, h4, h5, h6, h7⟩ := hall
  unfold assert_clock_inputs
  rw [check_range_ok _ _ _ _ h1, seqE_ok, check_range_ok _ _ _ _ h2, seqE_ok,
      check_range_ok _ _ _ _ h3, seqE_ok, check_range_ok _ _ _ _ h4, seqE_ok,
      check_range_ok _ _ _ _ h5, seqE_ok, check_range_ok _ _ _ _ h6, seqE_ok,
      check_range_ok _ _ _ _ h7]

/-- With some supplied field out of range, `assert_clock_inputs` raises an
error naming an offending field and its value. -/
theorem assert_clock_inputs_err (s mi hr dy mo yr wd : Option Int)
    (hbad : ¬ all_in_range s mi hr dy mo yr wd) :
    ∃ e, assert_clock_inputs s mi hr dy mo yr wd = Except.error e ∧
      names_offending s mi hr dy mo yr wd e := by
  by_cases h1 : in_range 0 59 s
  case neg =>
    obtain ⟨v, hv, hout⟩ := not_in_range_elim _ _ _ h1
    refine ⟨⟨"seconds", v⟩, ?_, Or.inl ⟨rfl, hv, hout⟩⟩
    unfold assert_clock_inputs
    rw [hv, check_range_err _ _ _ _ hout, seqE_err]
  case pos =>
  by_cases h2 : in_range 0 59 mi
  case neg =>
    obtain ⟨v, hv, hout⟩ := not_in_range_elim _ _ _ h2
    refine ⟨⟨"minutes", v⟩, ?_, Or.inr (Or.inl ⟨rfl, hv, hout⟩)⟩
    unfold assert_clock_inputs
    rw [check_range_ok _ _ _ _ h1, seqE_ok, hv, check_range_err _ _ _ _ hout, seqE_err]
  case pos =>
  by_cases h3 : in_range 0 23 hr
  case neg =>
    obtain ⟨v, hv, hout⟩ := not_in_range_elim _ _ _ h3
    refine ⟨⟨"hours", v⟩, ?_, Or.inr (Or.inr (Or.inl ⟨rfl, hv, hout⟩))⟩
    unfold assert_clock_inputs
    rw [check_range_ok _ _ _ _ h1, seqE_ok, check_range_ok _ _ _ _ h2, seqE_ok,
        hv, check_range_err _ _ _ _ hout, seqE_err]
  case pos =>
  by_cases h4 : in_range 1 31 dy
  case neg =>
    obtain ⟨v, hv, hout⟩ := not_in_range_elim _ _ _ h4
    refine ⟨⟨"days", v⟩, ?_, Or.inr (Or.inr (Or.inr (Or.inl ⟨rfl, hv, hout⟩)))⟩
    unfold assert_clock_inputs
    rw [check_range_ok _ _ _ _ h1, seqE_ok, check_range_ok _ _ _ _ h2, seqE_ok,
        check_range_ok _ _ _ _ h3, seqE_ok, hv, check_range_err _ _ _ _ hout, seqE_err]
  case pos =>
  by_cases h5 : in_range 1 12 mo
  case neg =>
    obtain ⟨v, hv, hout⟩ := not_in_range_elim _ _ _ h5
    refine ⟨⟨"month", v⟩, ?_, Or.inr (Or.inr (Or.inr (Or.inr (Or.inl ⟨rfl, hv, hout⟩))))⟩
    unfold assert_clock_inputs
    rw [check_range_ok _ _ _ _ h1, seqE_ok, check_range_ok _ _ _ _ h2, seqE_ok,
        check_range_ok _ _ _ _ h3, seqE_ok, check_range_ok _ _ _ _ h4, seqE_ok,
        hv, check_range_err _ _ _ _ hout, seqE_err]
  case pos =>
  by_cases h6 : in_range 0 99 yr
  case neg =>
    obtain ⟨v, hv, hout⟩ := not_in_range_elim _ _ _ h6
    refine ⟨⟨"year", v⟩, ?_,
      Or.inr (Or.inr (Or.inr (Or.inr (Or.inr (Or.inl ⟨rfl, hv, hout⟩)))))⟩
    unfold assert_clock_inputs
    rw [check_range_ok _ _ _ _ h1, seqE_ok, check_range_ok _ _ _ _ h2, seqE_ok,
        check_range_ok _ _ _ _ h3, seqE_ok, check_range_ok _ _ _ _ h4, seqE_ok,
        check_range_ok _ _ _ _ h5, seqE_ok, hv, check_range_err _ _ _ _ hout, seqE_err]
  case pos =>
  by_cases h7 : in_range 1 7 wd
  case neg =>
    obtain ⟨v, hv, hout⟩ := not_in_range_elim _ _ _ h7
    refine ⟨⟨"weekday", v⟩, ?_,
      Or.inr (Or.inr (Or.inr (Or.inr (Or.inr (Or.inr ⟨rfl, hv, hout⟩)))))⟩
    unfold assert_clock_inputs
    rw [check_range_ok _ _ _ _ h1, seqE_ok, check_range_ok _ _ _ _ h2, seqE_ok,
        check_range_ok _ _ _ _ h3, seqE_ok, check_range_ok _ _ _ _ h4, seqE_ok,
        check_range_ok _ _ _ _ h5, seqE_ok, check_range_ok _ _ _ _ h6, seqE_ok,
        hv, check_range_err _ _ _ _ hout]
  case pos =>
    exact absurd ⟨h1, h2, h3, h4, h5, h6, h7⟩ hbad

/-- A conditional field write leaves every other register alone. -/
theorem upd_ne (st : Regs) (r : Nat) (o : Option Int) (a : Nat) (h : ¬ a = r) :
    upd st r o a = st a := by
  cases o with
  | none => rfl
  | some v =>
    show (if a = r then (int_to_bcd v).toNat else st a) = st a
    exact if_neg h

/-- A supplied field write stores the BCD encoding at its register. -/
theorem upd_some (st : Regs) (r : Nat) (v : Int) :
    upd st r (some v) r = (int_to_bcd v).toNat := by
  show (if r = r then (int_to_bcd v).toNat else st r) = _
  exact if_pos rfl

/-- C3: `write_all` is all-or-nothing.  If any supplied field is outside its
documented domain, the call returns a ValidationError naming an offending
field and value and produces no successor register state (the validation is
sequenced strictly before the first register write, as in the source); if
every supplied field is in range, the call succeeds and each supplied
field's register receives its BCD encoding. -/
theorem c3_write_all_all_or_nothing (st : Regs) (s mi hr dy mo yr wd : Option Int) :
    (¬ all_in_range s mi hr dy mo yr wd →
      ∃ e, write_all st s mi hr dy mo yr wd = Except.error e ∧
        names_offending s mi hr dy mo yr wd e) ∧
    (all_in_range s mi hr dy mo yr wd →
      ∃ st2, write_all st s mi hr dy mo yr wd = Except.ok st2 ∧
        (∀ v, s = some v → st2 Reg.SECONDS = (int_to_bcd v).toNat) ∧
        (∀ v, mi = some v → st2 Reg.MINUTES = (int_to_bcd v).toNat) ∧
        (∀ v, hr = some v → st2 Reg.HOURS = (int_to_bcd v).toNat) ∧
        (∀ v, dy = some v → st2 Reg.DAYS = (int_to_bcd v).toNat) ∧
        (∀ v, mo = some v → st2 Reg.MONTH = (int_to_bcd v).toNat) ∧
        (∀ v, yr = some v → st2 Reg.YEAR = (int_to_bcd v).toNat) ∧
        (∀ v, wd = some v → st2 Reg.WEEKDAY = (int_to_bcd v).toNat)) := by
  constructor
  · intro hbad
    obtain ⟨e, he, hoff⟩ := assert_clock_inputs_err s mi hr dy mo yr wd hbad
    refine ⟨e, ?_, hoff⟩
    unfold write_all
    rw [he]
  · intro hall
    have hok := assert_clock_inputs_ok s mi hr dy mo yr wd hall
    refine ⟨upd (upd (upd (upd (upd (upd (upd st Reg.SECONDS s) Reg.MINUTES mi)
        Reg.HOURS hr) Reg.DAYS dy) Reg.MONTH mo) Reg.YEAR yr) Reg.WEEKDAY wd,
      ?_, ?_, ?_, ?_, ?_, ?_, ?_, ?_⟩
    · unfold write_all
      rw [hok]
    · intro v hv
      rw [upd_ne _ Reg.WEEKDAY wd Reg.SECONDS (by decide),
          upd_ne _ Reg.YEAR yr Reg.SECONDS (by decide),
          upd_ne _ Reg.MONTH mo Reg.SECONDS (by decide),
          upd_ne _ Reg.DAYS dy Reg.SECONDS (by decide),
          upd_ne _ Reg.HOURS hr Reg.SECONDS (by decide),
          upd_ne _ Reg.MINUTES mi Reg.SECONDS (by decide),
          hv, upd_some]
    · intro v hv
      rw [upd_ne _ Reg.WEEKDAY wd Reg.MINUTES (by decide),
          upd_ne _ Reg.YEAR yr Reg.MINUTES (by decide),
          upd_ne _ Reg.MONTH mo Reg.MINUTES (by decide),
          upd_ne _ Reg.DAYS dy Reg.MINUTES (by decide),
          upd_ne _ Reg.HOURS hr Reg.MINUTES (by decide),
          hv, upd_some]
    · intro v hv
      rw [upd_ne _ Reg.WEEKDAY wd Reg.HOURS (by decide),
          upd_ne _ Reg.YEAR yr Reg.HOURS (by decide),
          upd_ne _ Reg.MONTH mo Reg.HOURS (by decide),
          upd_ne _ Reg.DAYS dy Reg.HOURS (by decide),
          hv, upd_some]
    · intro v hv
      rw [upd_ne _ Reg.WEEKDAY wd Reg.DAYS (by decide),
          upd_ne _ Reg.YEAR yr Reg.DAYS (by decide),
          upd_ne _ Reg.MONTH mo Reg.DAYS (by decide),
          hv, upd_some]
    · intro v hv
      rw [upd_ne _ Reg.WEEKDAY wd Reg.MONTH (by decide),
          upd_ne _ Reg.YEAR yr Reg.MONTH (by decide),
          hv, upd_some]
    · intro v hv
      rw [upd_ne _ Reg.WEEKDAY wd Reg.YEAR (by decide),
          hv, upd_some]
    · intro v hv
      rw [hv, upd_some]

/-- Witness for C3: seconds=60 is rejected with an error naming seconds and
60, while the all-boundary-value request {59, 59, 23, 31, 12, 99, 7}
succeeds and writes the seconds register. -/
theorem c3_write_all_all_or_nothing_witness :
    (∃ e, write_all regs0 (some 60) none none none none none none = Except.error e ∧
      names_offending (some 60) none none none none none none e) ∧
    (∃ st2, write_all regs0 (some 59) (some 59) (some 23) (some 31) (some 12)
        (some 99) (some 7) = Except.ok st2 ∧
      st2 Reg.SECONDS = (int_to_bcd 59).toNat) := by
  constructor
  · exact (c3_write_all_all_or_nothing regs0 (some 60) none none none none none
      none).1 (by decide)
  · obtain ⟨st2, hok, hsec, _⟩ :=
      (c3_write_all_all_or_nothing regs0 (some 59) (some 59) (some 23) (some 31)
        (some 12) (some 99) (some 7)).2 (by decide)
    exact ⟨st2, hok, hsec 59 rfl⟩

end PCF8523
